import Mathlib

/-!
Verification of the contact-form request handler in
`src/middleware/src/index.js` (a Cloudflare Worker).

JavaScript strings are modelled as `List Char` (`Str`).  The handler
`fetch` is embedded as a pure function from the request, the environment,
the key-value store state, the Turnstile siteverify outcome and the SES
send outcome to a `Response` together with the chronological list of
external effects (KV reads/writes, the siteverify call, the SES send).
-/

namespace Contact

/-- JavaScript strings are modelled as lists of characters. -/
abbrev Str := List Char

/-- Embed a Lean string literal as a `Str`. -/
def S (s : String) : Str := s.data

/-- The apostrophe character (U+0027). -/
def apos : Char := Char.ofNat 39

/-- The backquote character (U+0060). -/
def backquote : Char := Char.ofNat 96

/-! ## escapeHtml (source lines 333-342) -/

/-- Replacement for one character under `escapeHtml`s regex replace:
the five mapped characters become their entities, all others are kept. -/
def escapeChar (c : Char) : Str :=
  if c = '&' then S "&amp;"
  else if c = '<' then S "&lt;"
  else if c = '>' then S "&gt;"
  else if c = '"' then S "&quot;"
  else if c = apos then S "&#39;"
  else [c]

/-- `escapeHtml` from the source: `text.replace(/[&<>"]/g, map)` extended
with the apostrophe, i.e. every occurrence of one of the five special
characters is replaced by its entity. -/
def escapeHtml (s : Str) : Str := s.foldr (fun c acc => escapeChar c ++ acc) []

/-- A character that `escapeHtml` output must never contain raw. -/
def isRawSpecial (c : Char) : Bool := c = '<' || c = '>' || c = '"' || c = apos

/-- Does the list start with one of the five replacement entities? -/
def startsWithEntity (l : Str) : Bool :=
  (l.take 5 == S "&amp;") || (l.take 4 == S "&lt;") || (l.take 4 == S "&gt;") ||
  (l.take 6 == S "&quot;") || (l.take 5 == S "&#39;")

/-- Every ampersand in the list begins one of the five entities. -/
def ampSafe : Str → Bool
  | [] => true
  | c :: rest => (if c = '&' then startsWithEntity (c :: rest) else true) && ampSafe rest

theorem escapeHtml_nil : escapeHtml [] = [] := rfl

theorem escapeHtml_cons (c : Char) (t : Str) :
    escapeHtml (c :: t) = escapeChar c ++ escapeHtml t := rfl

theorem escapeChar_no_raw (c : Char) :
    (escapeChar c).all (fun d => !isRawSpecial d) = true := by
  unfold escapeChar
  split
  · decide
  split
  · decide
  split
  · decide
  split
  · decide
  split
  · decide
  rename_i h1 h2 h3 h4 h5
  simp [isRawSpecial, h2, h3, h4, h5]

theorem ampSafe_escapeChar_append (c : Char) (l : Str) (h : ampSafe l = true) :
    ampSafe (escapeChar c ++ l) = true := by
  unfold escapeChar
  split
  · simp [ampSafe, startsWithEntity, S, h]
  split
  · simp [ampSafe, startsWithEntity, S, h]
  split
  · simp [ampSafe, startsWithEntity, S, h]
  split
  · simp [ampSafe, startsWithEntity, S, h]
  split
  · simp [ampSafe, startsWithEntity, S, h]
  rename_i h1 _ _ _ _
  simp [ampSafe, h1, h]

/-! ## JavaScript value and string primitives -/

/-- The JavaScript values a parsed JSON field can hold, as far as the
handler observes them: `objv` stands for any object or array. -/
inductive JSVal where
  | undef
  | nullv
  | boolv (b : Bool)
  | numv (n : Int)
  | strv (s : Str)
  | objv
deriving DecidableEq

/-- JavaScript truthiness of a `JSVal` (`NaN` is not representable; JSON
cannot produce it). -/
def JSVal.truthy : JSVal → Bool
  | .undef => false
  | .nullv => false
  | .boolv b => b
  | .numv n => !(n == 0)
  | .strv s => !s.isEmpty
  | .objv => true

/-- ASCII whitespace stripped by `String.prototype.trim` (the full JS
definition also strips Unicode space separators; no claim involves
those). -/
def isJsWhitespace (c : Char) : Bool :=
  c = ' ' || c = '\t' || c = '\n' || c = '\r' || c = Char.ofNat 11 || c = Char.ofNat 12

/-- `s.trim()`. -/
def jsTrim (s : Str) : Str :=
  ((s.dropWhile isJsWhitespace).reverse.dropWhile isJsWhitespace).reverse

/-- `x || d` on an optional string (`headers.get` returns null for a
missing header; the empty string is falsy). -/
def jsOrStr (o : Option Str) (d : Str) : Str :=
  match o with
  | some s => if s.isEmpty then d else s
  | none => d

/-- Truthiness of an environment variable (absent or empty is falsy). -/
def envTruthy (o : Option Str) : Bool :=
  match o with
  | some s => !s.isEmpty
  | none => false

/-- `Set.prototype.has` on a set of strings. -/
def hasStr (l : List Str) (x : Str) : Bool := decide (x ∈ l)

/-- Digits of `n` in base 10 (fuel-driven so that the kernel can reduce
it; the fuel argument always suffices because `n < 10^fuel` after
`fuel ≥ 1` divisions by 10 the argument reaches 0). -/
def natToStrAux : Nat → Nat → Str
  | 0, _ => []
  | fuel + 1, n =>
    if n < 10 then [Char.ofNat (48 + n)]
    else natToStrAux fuel (n / 10) ++ [Char.ofNat (48 + n % 10)]

/-- Decimal rendering of a natural number, as `String(n)` produces. -/
def natToStr (n : Nat) : Str := natToStrAux (n + 1) n

/-- `String(i)` for an integer. -/
def intToStr (i : Int) : Str :=
  if i < 0 then '-' :: natToStr i.natAbs else natToStr i.toNat

/-- Leading decimal digits, `none` when there are none (JS `NaN`). -/
def parseDigits (t : Str) : Option Nat :=
  let ds := t.takeWhile Char.isDigit
  if ds.isEmpty then none
  else some (ds.foldl (fun acc c => acc * 10 + (c.toNat - 48)) 0)

/-- `parseInt(s)` with no radix argument: optional leading whitespace,
optional sign, leading decimal digits; `none` models `NaN`.  (The
automatic hexadecimal detection for a `0x` prefix is not modelled; no
stored counter value ever carries that prefix and no claim involves
it — a `0x` input parses here as `0`, matching `parseInt` with an
explicit radix of 10.) -/
def jsParseInt (s : Str) : Option Int :=
  let t := s.dropWhile isJsWhitespace
  match t with
  | '-' :: rest => (parseDigits rest).map (fun n => -(n : Int))
  | '+' :: rest => (parseDigits rest).map (fun n => (n : Int))
  | _ => (parseDigits t).map (fun n => (n : Int))

/-- `(parseInt(submissionCount) || 0)` where `submissionCount` is the KV
read result (null when the key is absent): `parseInt` of null is `NaN`,
which is falsy, so absent and unparsable both give 0. -/
def parseIntOr0 (stored : Option Str) : Int :=
  match stored with
  | none => 0
  | some s => (jsParseInt s).getD 0

/-! ## Constants (source lines 24-41) -/

/-- Allowed browser origins for CORS. -/
def ALLOWED_ORIGINS : List Str :=
  [S "https://raduhhr.xyz", S "https://www.raduhhr.xyz", S "https://cf-form-page.pages.dev"]

/-- Allowed hostnames returned by Turnstile siteverify. -/
def ALLOWED_TURNSTILE_HOSTNAMES : List Str :=
  [S "raduhhr.xyz", S "www.raduhhr.xyz", S "cf-form-page.pages.dev"]

def MAX_BODY_BYTES : Nat := 10000

def RATE_LIMIT_MAX : Nat := 5

def RATE_LIMIT_WINDOW : Nat := 3600

/-! ## isValidEmail (source lines 295-304) -/

/-- ASCII letter or digit, the `[a-zA-Z0-9]` character class. -/
def isAlnum (c : Char) : Bool :=
  ('a' ≤ c && c ≤ 'z') || ('A' ≤ c && c ≤ 'Z') || ('0' ≤ c && c ≤ '9')

/-- The non-alphanumeric characters of the local-part character class of
the email pattern. -/
def localSpecials : List Char :=
  ['.', '!', '#', '$', '%', '&', apos, '*', '+', '/', '=', '?', '^', '_',
   backquote, '{', '|', '}', '~', '-']

/-- One character of the local part of the email pattern. -/
def isLocalChar (c : Char) : Bool := isAlnum c || localSpecials.contains c

/-- Split a list at every occurrence of a separator character. -/
def splitOnChar (sep : Char) : Str → List Str
  | [] => [[]]
  | c :: rest =>
    let r := splitOnChar sep rest
    if c = sep then [] :: r
    else
      match r with
      | [] => [[c]]
      | h :: t => (c :: h) :: t

/-- One domain label of the email pattern:
`[a-zA-Z0-9](?:[a-zA-Z0-9-]{0,61}[a-zA-Z0-9])?` — an alphanumeric
character, optionally followed by up to 61 alphanumeric-or-hyphen
characters and a final alphanumeric character. -/
def labelOk : Str → Bool
  | [] => false
  | c :: rest =>
    isAlnum c &&
      (rest.isEmpty ||
        (rest.length ≤ 62 && rest.dropLast.all (fun d => isAlnum d || d = '-') &&
          Option.any isAlnum rest.getLast?))

/-- The anchored simplified RFC 5322 pattern of the source: a nonempty
local part over the local character class, one `@`, then dot-separated
domain labels.  Since neither character class contains `@`, the pattern
matches exactly when the string has one `@` splitting it this way. -/
def emailPatternOk (email : Str) : Bool :=
  match splitOnChar '@' email with
  | [lp, dom] => !lp.isEmpty && lp.all isLocalChar && (splitOnChar '.' dom).all labelOk
  | _ => false

/-- `isValidEmail` from the source: length 3-254, no CR/LF/TAB, then the
simplified RFC 5322 pattern. -/
def isValidEmail (email : Str) : Bool :=
  if email.length > 254 || email.length < 3 then false
  else if email.any (fun c => c = '\r' || c = '\n' || c = '\t') then false
  else emailPatternOk email

/-! ## Request, environment, store, effects, responses -/

/-- The observable outcome of `JSON.parse(raw)`: it throws, yields
`null`, or yields a value whose four relevant properties are the given
`JSVal`s (a primitive or array behaves as an object whose four
properties are all `undefined`). -/
inductive ParseResult where
  | malformed
  | nullVal
  | obj (name email message turnstileToken : JSVal)
deriving DecidableEq

/-- The parts of the incoming request the handler reads.  The body is
modelled by the length of the decoded text (`raw.length`) together with
the outcome of parsing it; the two are carried separately because the
handler only ever observes them through these two projections. -/
structure Request where
  method : Str
  origin : Option Str
  cfConnectingIp : Option Str
  userAgent : Option Str
  rawLen : Nat
  parsed : ParseResult
deriving DecidableEq

/-- The worker environment bindings the handler checks. -/
structure Env where
  turnstileSecretKey : Option Str
  awsAccessKeyId : Option Str
  awsSecretAccessKey : Option Str
  rateLimiterPresent : Bool
deriving DecidableEq

/-- The KV namespace contents, as an association list. -/
abbrev Store := List (Str × Str)

/-- `RATE_LIMITER.get(k)`. -/
def lookupStore (store : Store) (k : Str) : Option Str :=
  match store with
  | [] => none
  | (k2, v) :: rest => if k2 = k then some v else lookupStore rest k

/-- Write a key, replacing an existing binding. -/
def storePut (store : Store) (k v : Str) : Store :=
  match store with
  | [] => [(k, v)]
  | (k2, v2) :: rest => if k2 = k then (k, v) :: rest else (k2, v2) :: storePut rest k v

/-- The JSON body returned by the siteverify endpoint, restricted to the
two properties the handler reads.  (A siteverify body that is not an
object behaves as one whose two properties are falsy.) -/
structure TurnstileResp where
  success : JSVal
  hostname : JSVal
deriving DecidableEq

/-- The network-level outcome of the siteverify fetch inside
`validateTurnstileToken`: the fetch (or the body read) throws, the
response is not ok, or it is ok with a JSON body. -/
inductive SiteverifyOutcome where
  | exn
  | notOk
  | ok (resp : TurnstileResp)
deriving DecidableEq

/-- `validateTurnstileToken` (source lines 306-331), as a function of
the network outcome: any exception or non-ok response collapses to
`{ success: false }`. -/
def validateTurnstileToken : SiteverifyOutcome → TurnstileResp
  | .exn => { success := .boolv false, hostname := .undef }
  | .notOk => { success := .boolv false, hostname := .undef }
  | .ok r => r

/-- The SES message parameters the handler constructs (source lines
192-229). -/
structure EmailParams where
  source : Str
  dest : Str
  replyTo : Str
  subject : Str
  textBody : Str
  htmlBody : Str
deriving DecidableEq

/-- One external side effect, in chronological order of occurrence. -/
inductive Effect where
  | kvGet (key : Str)
  | tsVerify (token : Str)
  | sesSend (p : EmailParams)
  | kvPut (key value : Str) (ttl : Nat)
deriving DecidableEq

/-- The JSON response body: empty (`null`), an `{error: m}` object or a
`{success: m}` object. -/
inductive RespBody where
  | empty
  | errJson (msg : Str)
  | okJson (msg : Str)
deriving DecidableEq

/-- An HTTP response: status, body and headers. -/
structure Response where
  status : Nat
  body : RespBody
  headers : List (Str × Str)
deriving DecidableEq

/-! ## Header construction (source lines 260-293) -/

/-- The four fixed CORS headers every `buildCorsHeaders` result holds. -/
def corsFixedHeaders : List (Str × Str) :=
  [(S "Access-Control-Allow-Methods", S "POST, OPTIONS"),
   (S "Access-Control-Allow-Headers", S "Content-Type"),
   (S "Access-Control-Max-Age", S "86400"),
   (S "Vary", S "Origin")]

/-- `buildCorsHeaders` from the source: the four fixed headers, plus the
echoed `Access-Control-Allow-Origin` when the origin is nonempty and on
the allow-list. -/
def buildCorsHeaders (origin : Str) : List (Str × Str) :=
  if !origin.isEmpty && hasStr ALLOWED_ORIGINS origin then
    corsFixedHeaders ++ [(S "Access-Control-Allow-Origin", origin)]
  else corsFixedHeaders

/-- The `Content-Security-Policy` value
`default-src (apos)none(apos); frame-ancestors (apos)none(apos);`. -/
def cspValue : Str :=
  S "default-src " ++ [apos] ++ S "none" ++ [apos] ++ S "; frame-ancestors " ++
    [apos] ++ S "none" ++ [apos] ++ S ";"

/-- `buildSecurityHeaders` from the source. -/
def buildSecurityHeaders : List (Str × Str) :=
  [(S "X-Content-Type-Options", S "nosniff"),
   (S "X-Frame-Options", S "DENY"),
   (S "X-XSS-Protection", S "1; mode=block"),
   (S "Referrer-Policy", S "strict-origin-when-cross-origin"),
   (S "Content-Security-Policy", cspValue)]

/-- The `json` helper: a JSON body with `Content-Type` prepended to the
extra headers. -/
def json (body : RespBody) (status : Nat) (extraHeaders : List (Str × Str)) : Response :=
  { status := status, body := body,
    headers := (S "Content-Type", S "application/json; charset=utf-8") :: extraHeaders }

/-! ## Field extraction and validation -/

/-- `(payload.f || "").trim()`: a string is trimmed, a falsy value gives
the empty string, and a truthy non-string throws (`.trim` is not a
function on it). -/
def extractTrim : JSVal → Except Unit Str
  | .strv s => .ok (jsTrim s)
  | v => if v.truthy then .error () else .ok []

/-- The rate-limit guard
`submissionCount && parseInt(submissionCount) >= RATE_LIMIT_MAX`:
the read value must be truthy (non-null, nonempty) and parse to at
least the limit (`NaN` comparisons are false). -/
def rateLimited (stored : Option Str) : Bool :=
  match stored with
  | none => false
  | some s =>
    !s.isEmpty &&
      (match jsParseInt s with
       | some k => decide ((RATE_LIMIT_MAX : Int) ≤ k)
       | none => false)

/-- `ALLOWED_TURNSTILE_HOSTNAMES.has(turnstile.hostname || "")`: a falsy
hostname becomes the empty string, which is not on the allow-list, and
`Set.has` is false on any non-string, so only a string on the allow-list
passes. -/
def hostnameAllowed (v : JSVal) : Bool :=
  match v with
  | .strv s => hasStr ALLOWED_TURNSTILE_HOSTNAMES s
  | _ => false

/-! ## Email composition (source lines 189-229) -/

/-- The plaintext body of the outbound email: user values interpolated
verbatim. -/
def textBodyOf (name email message now ip ua : Str) : Str :=
  S "New submission from: " ++ name ++ S "\n" ++
  S "Email: " ++ email ++ S "\n" ++
  S "Message: " ++ message ++ S "\n\n" ++
  S "---\n" ++
  S "Timestamp: " ++ now ++ S "\n" ++
  S "IP: " ++ ip ++ S "\n" ++
  S "User Agent: " ++ ua ++ S "\n"

/-- The HTML body of the outbound email: every interpolated value passes
through `escapeHtml`. -/
def htmlBodyOf (name email message now ip ua : Str) : Str :=
  S "<h3>New Contact Submission</h3>" ++
  S "<p><strong>Name:</strong> " ++ escapeHtml name ++ S "</p>" ++
  S "<p><strong>Email:</strong> " ++ escapeHtml email ++ S "</p>" ++
  S "<p><strong>Message:</strong></p>" ++
  S "<pre style=\"white-space:pre-wrap;font-family:ui-monospace,Menlo,Consolas,monospace;padding:12px;background:#f6f8fa;border:1px solid #d0d7de;border-radius:6px;\">" ++
  escapeHtml message ++ S "</pre>" ++
  S "<hr style=\"margin:20px 0;border:none;border-top:1px solid #d0d7de;\"/>" ++
  S "<p style=\"font-size:12px;color:#57606a;\">" ++
  S "<strong>Timestamp:</strong> " ++ escapeHtml now ++ S "<br/>" ++
  S "<strong>IP:</strong> " ++ escapeHtml ip ++ S "<br/>" ++
  S "<strong>User Agent:</strong> " ++ escapeHtml ua ++
  S "</p>"

/-- The full SES parameters (source lines 192-229): fixed source,
destination, reply-to and subject; composed text and HTML bodies. -/
def buildEmailParams (name email message now ip ua : Str) : EmailParams :=
  { source := S "raduhrr@gmail.com",
    dest := S "vladdulgher@yahoo.com",
    replyTo := S "raduhhr@yahoo.com",
    subject := S "New Contact Form Submission",
    textBody := textBodyOf name email message now ip ua,
    htmlBody := htmlBodyOf name email message now ip ua }

/-! ## The handler (source lines 43-256) -/

/-- Outcome of the `try` block: a returned response, or a thrown
exception that the catch converts to the generic 500. -/
inductive TryOutcome where
  | resp (r : Response)
  | thrown
deriving DecidableEq

/-- The client IP: `request.headers.get("CF-Connecting-IP") || "unknown"`. -/
def ipOf (req : Request) : Str := jsOrStr req.cfConnectingIp (S "unknown")

/-- The rate-limit key for the request. -/
def keyOf (req : Request) : Str := S "ratelimit:" ++ ipOf req

/-- The body of the `try` (source lines 74-246), returning the outcome
together with the chronological effect list.  A `.thrown` outcome keeps
the effects that happened before the throw. -/
def tryBlock (req : Request) (env : Env) (store : Store)
    (tsOutcome : SiteverifyOutcome) (sesOk : Bool) (now : Str) :
    TryOutcome × List Effect :=
  let origin := jsOrStr req.origin []
  let hdrs := buildCorsHeaders origin ++ buildSecurityHeaders
  if !envTruthy env.turnstileSecretKey then (.thrown, [])
  else if !envTruthy env.awsAccessKeyId then (.thrown, [])
  else if !envTruthy env.awsSecretAccessKey then (.thrown, [])
  else if !env.rateLimiterPresent then (.thrown, [])
  else
    let rateLimitKey := keyOf req
    let submissionCount := lookupStore store rateLimitKey
    let effs := [Effect.kvGet rateLimitKey]
    if rateLimited submissionCount then
      (.resp (json (.errJson (S "Rate limit exceeded. Please try again in an hour.")) 429 hdrs), effs)
    else if req.rawLen > MAX_BODY_BYTES then
      (.resp (json (.errJson (S "Payload too large")) 413 hdrs), effs)
    else
      match req.parsed with
      | .malformed => (.resp (json (.errJson (S "Invalid JSON")) 400 hdrs), effs)
      | .nullVal => (.thrown, effs)
      | .obj nv ev mv tv =>
        match extractTrim nv, extractTrim ev, extractTrim mv, extractTrim tv with
        | .ok name, .ok email, .ok message, .ok token =>
          if name.isEmpty || email.isEmpty || message.isEmpty || token.isEmpty then
            (.resp (json (.errJson (S "All fields are required")) 400 hdrs), effs)
          else if name.length < 2 || name.length > 100 then
            (.resp (json (.errJson (S "Name must be between 2 and 100 characters")) 400 hdrs), effs)
          else if !isValidEmail email then
            (.resp (json (.errJson (S "Invalid email address")) 400 hdrs), effs)
          else if message.length < 10 || message.length > 2000 then
            (.resp (json (.errJson (S "Message must be between 10 and 2000 characters")) 400 hdrs), effs)
          else
            let turnstile := validateTurnstileToken tsOutcome
            let effs := effs ++ [Effect.tsVerify token]
            if !turnstile.success.truthy then
              (.resp (json (.errJson (S "Security verification failed")) 400 hdrs), effs)
            else if !hostnameAllowed turnstile.hostname then
              (.resp (json (.errJson (S "Invalid verification context")) 400 hdrs), effs)
            else
              let ua := jsOrStr req.userAgent (S "Unknown")
              let params := buildEmailParams name email message now (ipOf req) ua
              let effs := effs ++ [Effect.sesSend params]
              if !sesOk then (.thrown, effs)
              else
                let newCount := parseIntOr0 submissionCount + 1
                let effs := effs ++
                  [Effect.kvPut rateLimitKey (intToStr newCount) RATE_LIMIT_WINDOW]
                (.resp (json (.okJson (S "Email sent successfully!")) 200 hdrs), effs)
        | _, _, _, _ => (.thrown, effs)

/-- The worker `fetch` handler (source lines 43-256): origin check,
preflight, method check, then the `try` block with the catch turning a
throw into the generic 500. -/
def fetch (req : Request) (env : Env) (store : Store)
    (tsOutcome : SiteverifyOutcome) (sesOk : Bool) (now : Str) :
    Response × List Effect :=
  let origin := jsOrStr req.origin []
  if !origin.isEmpty && !hasStr ALLOWED_ORIGINS origin then
    (json (.errJson (S "Forbidden origin")) 403 [], [])
  else
    let corsHeaders := buildCorsHeaders origin
    let securityHeaders := buildSecurityHeaders
    if req.method = S "OPTIONS" then
      if !origin.isEmpty && !hasStr ALLOWED_ORIGINS origin then
        ({ status := 403, body := .empty, headers := [] }, [])
      else
        ({ status := 204, body := .empty, headers := corsHeaders ++ securityHeaders }, [])
    else if !(req.method = S "POST") then
      (json (.errJson (S "Method Not Allowed")) 405 (corsHeaders ++ securityHeaders), [])
    else
      match tryBlock req env store tsOutcome sesOk now with
      | (.resp r, effs) => (r, effs)
      | (.thrown, effs) =>
        (json (.errJson (S "Failed to send email. Please try again later.")) 500
          (corsHeaders ++ securityHeaders), effs)

/-! ## Effect bookkeeping -/

/-- The emails dispatched in an effect list, in order. -/
def sentEmails (effs : List Effect) : List EmailParams :=
  effs.filterMap (fun e => match e with | .sesSend p => some p | _ => none)

/-- The KV writes in an effect list, in order. -/
def kvWrites (effs : List Effect) : List (Str × Str × Nat) :=
  effs.filterMap (fun e => match e with | .kvPut k v t => some (k, v, t) | _ => none)

/-- Apply one effect to the store (only writes change it). -/
def applyEffect (store : Store) : Effect → Store
  | .kvPut k v _ => storePut store k v
  | _ => store

/-- Apply a chronological effect list to the store. -/
def applyEffects (store : Store) (effs : List Effect) : Store :=
  effs.foldl applyEffect store

/-- One full request round: run the handler against the store, then
fold its effects back into the store. -/
def stepHandle (req : Request) (env : Env) (tsOutcome : SiteverifyOutcome)
    (sesOk : Bool) (now : Str) (store : Store) : Store × Response :=
  let out := fetch req env store tsOutcome sesOk now
  (applyEffects store out.2, out.1)

/-- Resubmit the same request `n` times, returning the final store. -/
def iterateHandle (req : Request) (env : Env) (tsOutcome : SiteverifyOutcome)
    (sesOk : Bool) (now : Str) : Nat → Store → Store
  | 0, store => store
  | n + 1, store =>
    iterateHandle req env tsOutcome sesOk now n
      (stepHandle req env tsOutcome sesOk now store).1

/-- Resubmit the same request `n` times, returning for each round the
response status and the number of emails dispatched in that round. -/
def runRounds (req : Request) (env : Env) (tsOutcome : SiteverifyOutcome)
    (sesOk : Bool) (now : Str) : Nat → Store → List (Nat × Nat)
  | 0, _ => []
  | n + 1, store =>
    let out := fetch req env store tsOutcome sesOk now
    (out.1.status, (sentEmails out.2).length) ::
      runRounds req env tsOutcome sesOk now n (applyEffects store out.2)

/-! ## Hypothesis predicates and basic lemmas -/

/-- The request origin passes the origin gate: absent/empty, or on the
allow-list. -/
def originOk (req : Request) : Bool :=
  (jsOrStr req.origin []).isEmpty || hasStr ALLOWED_ORIGINS (jsOrStr req.origin [])

/-- All four environment bindings are present and nonempty. -/
def envOk (env : Env) : Bool :=
  envTruthy env.turnstileSecretKey && envTruthy env.awsAccessKeyId &&
    envTruthy env.awsSecretAccessKey && env.rateLimiterPresent

theorem origin_guard_false (req : Request) (h : originOk req = true) :
    (!(jsOrStr req.origin []).isEmpty && !hasStr ALLOWED_ORIGINS (jsOrStr req.origin [])) = false := by
  unfold originOk at h
  cases he : (jsOrStr req.origin []).isEmpty <;>
    cases hm : hasStr ALLOWED_ORIGINS (jsOrStr req.origin []) <;> simp_all

theorem not_isEmpty_of_length (l : Str) (h : 1 ≤ l.length) : l.isEmpty = false := by
  cases l with
  | nil => simp at h
  | cons c t => rfl

theorem isValidEmail_length (email : Str) (h : isValidEmail email = true) :
    3 ≤ email.length ∧ email.length ≤ 254 := by
  unfold isValidEmail at h
  split at h
  · exact absurd h (by simp)
  · rename_i hc
    simp only [Bool.or_eq_true, decide_eq_true_eq, not_or, Nat.not_lt] at hc
    omega

theorem jsParseInt_ne_nil (s : Str) (k : Int) (h : jsParseInt s = some k) : s ≠ [] := by
  intro hnil
  subst hnil
  simp [jsParseInt, parseDigits] at h

/-- Characterization of the handler on a fully valid submission: the
request passes the origin gate, is a POST, the environment is complete,
the client is under the rate limit, the body is within the size bound,
the four fields are strings whose trimmed values pass validation, and
the verifier reports success for an allowed hostname.  The handler then
reads the counter, verifies the token, sends the email, and — only when
the send succeeds — writes the incremented counter with the window TTL;
a failed send throws into the catch and produces the generic 500 with
no write. -/
theorem fetch_valid (req : Request) (env : Env) (store : Store)
    (tsOutcome : SiteverifyOutcome) (sesOk : Bool) (now : Str)
    (nv ev mv tv : Str)
    (hOrigin : originOk req = true)
    (hMethod : req.method = S "POST")
    (hEnv : envOk env = true)
    (hRate : rateLimited (lookupStore store (keyOf req)) = false)
    (hLen : req.rawLen ≤ MAX_BODY_BYTES)
    (hParsed : req.parsed = .obj (.strv nv) (.strv ev) (.strv mv) (.strv tv))
    (hName : 2 ≤ (jsTrim nv).length ∧ (jsTrim nv).length ≤ 100)
    (hEmail : isValidEmail (jsTrim ev) = true)
    (hMsg : 10 ≤ (jsTrim mv).length ∧ (jsTrim mv).length ≤ 2000)
    (hTok : (jsTrim tv).isEmpty = false)
    (hTs : (validateTurnstileToken tsOutcome).success.truthy = true)
    (hHost : hostnameAllowed (validateTurnstileToken tsOutcome).hostname = true) :
    fetch req env store tsOutcome sesOk now =
      (let hdrs := buildCorsHeaders (jsOrStr req.origin []) ++ buildSecurityHeaders
       let params := buildEmailParams (jsTrim nv) (jsTrim ev) (jsTrim mv) now (ipOf req)
         (jsOrStr req.userAgent (S "Unknown"))
       if sesOk then
         (json (.okJson (S "Email sent successfully!")) 200 hdrs,
          [.kvGet (keyOf req), .tsVerify (jsTrim tv), .sesSend params,
           .kvPut (keyOf req) (intToStr (parseIntOr0 (lookupStore store (keyOf req)) + 1))
             RATE_LIMIT_WINDOW])
       else
         (json (.errJson (S "Failed to send email. Please try again later.")) 500 hdrs,
          [.kvGet (keyOf req), .tsVerify (jsTrim tv), .sesSend params])) := by
  have hguard := origin_guard_false req hOrigin
  have henv : envTruthy env.turnstileSecretKey = true ∧ envTruthy env.awsAccessKeyId = true ∧
      envTruthy env.awsSecretAccessKey = true ∧ env.rateLimiterPresent = true := by
    unfold envOk at hEnv
    simp only [Bool.and_eq_true] at hEnv
    exact ⟨hEnv.1.1.1, hEnv.1.1.2, hEnv.1.2, hEnv.2⟩
  obtain ⟨h1, h2, h3, h4⟩ := henv
  have hNe : (jsTrim nv).isEmpty = false := not_isEmpty_of_length _ (by omega)
  have hEe : (jsTrim ev).isEmpty = false := by
    have := isValidEmail_length _ hEmail
    exact not_isEmpty_of_length _ (by omega)
  have hMe : (jsTrim mv).isEmpty = false := not_isEmpty_of_length _ (by omega)
  have hn1 : decide ((jsTrim nv).length < 2) = false := by
    simp only [decide_eq_false_iff_not, Nat.not_lt]; omega
  have hn2 : decide ((jsTrim nv).length > 100) = false := by
    simp only [decide_eq_false_iff_not, Nat.not_lt, gt_iff_lt]; omega
  have hm1 : decide ((jsTrim mv).length < 10) = false := by
    simp only [decide_eq_false_iff_not, Nat.not_lt]; omega
  have hm2 : decide ((jsTrim mv).length > 2000) = false := by
    simp only [decide_eq_false_iff_not, Nat.not_lt, gt_iff_lt]; omega
  have hL : ¬ (req.rawLen > MAX_BODY_BYTES) := by omega
  simp only [fetch, tryBlock, hguard, hMethod, hParsed, extractTrim, hRate, hTs, hHost,
    hNe, hEe, hMe, hTok, hn1, hn2, hm1, hm2, hEmail, hL, h1, h2, h3, h4,
    Bool.not_true, Bool.not_false, Bool.false_and, Bool.and_false, Bool.false_or,
    Bool.or_false, Bool.or_self, if_false, if_true, ite_false, ite_true]
  have hPO : ¬ (S "POST" = S "OPTIONS") := by decide
  cases sesOk <;> simp [hPO]

/-! ## Concrete fixtures used by witnesses and counterexamples -/

/-- A fully populated environment. -/
def goodEnv : Env :=
  { turnstileSecretKey := some (S "sk"), awsAccessKeyId := some (S "ak"),
    awsSecretAccessKey := some (S "sak"), rateLimiterPresent := true }

/-- A siteverify outcome: success for an allow-listed hostname. -/
def goodTs : SiteverifyOutcome :=
  .ok { success := .boolv true, hostname := .strv (S "raduhhr.xyz") }

/-- A POST from an allowed origin with the four fields as given strings. -/
def mkReq (name email message : Str) : Request :=
  { method := S "POST", origin := some (S "https://raduhhr.xyz"),
    cfConnectingIp := some (S "203.0.113.7"), userAgent := some (S "TestUA"),
    rawLen := 200,
    parsed := .obj (.strv name) (.strv email) (.strv message) (.strv (S "tok")) }

/-- The scenario request of the spec: a well-formed submission. -/
def goodReq : Request := mkReq (S "Jo") (S "jo@example.com") (S "Hello there, this works!")

/-- A fixed timestamp for concrete runs. -/
def tnow : Str := S "2026-01-01T00:00:00.000Z"

/-- C9: `escapeHtml` output never contains a raw `<`, `>`, `"` or
apostrophe, and every `&` in the output starts one of the five
replacement entities, so interpolating the output into the HTML body
cannot introduce a tag, an attribute delimiter or a new entity. -/
theorem c9_escapeHtml_output_safe (s : Str) :
    (escapeHtml s).all (fun d => !isRawSpecial d) = true ∧
    ampSafe (escapeHtml s) = true := by
  induction s with
  | nil => exact ⟨rfl, rfl⟩
  | cons c t ih =>
    rw [escapeHtml_cons]
    refine ⟨?_, ampSafe_escapeChar_append c _ ih.2⟩
    rw [List.all_append]
    simp [escapeChar_no_raw c, ih.1]

/-- Folding an effect list with no KV writes leaves the store
unchanged. -/
theorem applyEffects_no_writes (effs : List Effect) (h : kvWrites effs = []) :
    ∀ store : Store, applyEffects store effs = store := by
  induction effs with
  | nil => intro store; rfl
  | cons e t ih =>
    intro store
    cases e with
    | kvPut k v ttl => simp [kvWrites, List.filterMap] at h
    | kvGet k =>
      have ht : kvWrites t = [] := by simpa [kvWrites, List.filterMap] using h
      simp [applyEffects, applyEffect, List.foldl] at ih ⊢
      exact ih ht store
    | tsVerify tk =>
      have ht : kvWrites t = [] := by simpa [kvWrites, List.filterMap] using h
      simp [applyEffects, applyEffect, List.foldl] at ih ⊢
      exact ih ht store
    | sesSend p =>
      have ht : kvWrites t = [] := by simpa [kvWrites, List.filterMap] using h
      simp [applyEffects, applyEffect, List.foldl] at ih ⊢
      exact ih ht store

/-- Exhaustive enumeration of the `try` block outcomes: a throw before
or at the KV read, one of the pre-verification 4xx responses with only
the KV read performed, the two post-verification 400 responses with the
read and the verify call, a throw after the send attempt (send failure),
or the success response with read, verify, send and write in order. -/
theorem tryBlock_cases (req : Request) (env : Env) (store : Store)
    (ts : SiteverifyOutcome) (sesOk : Bool) (now : Str) :
    (tryBlock req env store ts sesOk now = (.thrown, [])) ∨
    (tryBlock req env store ts sesOk now = (.thrown, [.kvGet (keyOf req)])) ∨
    (∃ m, tryBlock req env store ts sesOk now =
        (.resp (json (.errJson m) 429
          (buildCorsHeaders (jsOrStr req.origin []) ++ buildSecurityHeaders)),
         [.kvGet (keyOf req)]) ∧
      rateLimited (lookupStore store (keyOf req)) = true) ∨
    (∃ m, tryBlock req env store ts sesOk now =
        (.resp (json (.errJson m) 413
          (buildCorsHeaders (jsOrStr req.origin []) ++ buildSecurityHeaders)),
         [.kvGet (keyOf req)])) ∨
    (∃ m, tryBlock req env store ts sesOk now =
        (.resp (json (.errJson m) 400
          (buildCorsHeaders (jsOrStr req.origin []) ++ buildSecurityHeaders)),
         [.kvGet (keyOf req)])) ∨
    (∃ t, tryBlock req env store ts sesOk now =
        (.resp (json (.errJson (S "Security verification failed")) 400
          (buildCorsHeaders (jsOrStr req.origin []) ++ buildSecurityHeaders)),
         [.kvGet (keyOf req), .tsVerify t]) ∧
      (validateTurnstileToken ts).success.truthy = false) ∨
    (∃ t, tryBlock req env store ts sesOk now =
        (.resp (json (.errJson (S "Invalid verification context")) 400
          (buildCorsHeaders (jsOrStr req.origin []) ++ buildSecurityHeaders)),
         [.kvGet (keyOf req), .tsVerify t]) ∧
      hostnameAllowed (validateTurnstileToken ts).hostname = false) ∨
    (∃ t p, tryBlock req env store ts sesOk now =
        (.thrown, [.kvGet (keyOf req), .tsVerify t, .sesSend p]) ∧
      hostnameAllowed (validateTurnstileToken ts).hostname = true ∧ sesOk = false) ∨
    (∃ t p, tryBlock req env store ts sesOk now =
        (.resp (json (.okJson (S "Email sent successfully!")) 200
          (buildCorsHeaders (jsOrStr req.origin []) ++ buildSecurityHeaders)),
         [.kvGet (keyOf req), .tsVerify t, .sesSend p,
          .kvPut (keyOf req) (intToStr (parseIntOr0 (lookupStore store (keyOf req)) + 1))
            RATE_LIMIT_WINDOW]) ∧
      hostnameAllowed (validateTurnstileToken ts).hostname = true ∧ sesOk = true) := by
  unfold tryBlock
  cases c1 : envTruthy env.turnstileSecretKey with
  | false => exact Or.inl (by simp [c1])
  | true =>
  cases c2 : envTruthy env.awsAccessKeyId with
  | false => exact Or.inl (by simp [c1, c2])
  | true =>
  cases c3 : envTruthy env.awsSecretAccessKey with
  | false => exact Or.inl (by simp [c1, c2, c3])
  | true =>
  cases c4 : env.rateLimiterPresent with
  | false => exact Or.inl (by simp [c1, c2, c3, c4])
  | true =>
  simp only [c1, c2, c3, c4, Bool.not_true, Bool.not_false, Bool.false_eq_true,
    if_false, if_true, ite_true, ite_false]
  cases c5 : rateLimited (lookupStore store (keyOf req)) with
  | true =>
    exact Or.inr (Or.inr (Or.inl
      ⟨S "Rate limit exceeded. Please try again in an hour.", by simp [c5], by trivial⟩))
  | false =>
  simp only [c5, Bool.false_eq_true, if_false, ite_false]
  by_cases c6 : req.rawLen > MAX_BODY_BYTES
  · exact Or.inr (Or.inr (Or.inr (Or.inl ⟨S "Payload too large", by simp [c6]⟩)))
  simp only [if_neg c6]
  cases hp : req.parsed with
  | malformed =>
    exact Or.inr (Or.inr (Or.inr (Or.inr (Or.inl ⟨S "Invalid JSON", rfl⟩))))
  | nullVal => exact Or.inr (Or.inl rfl)
  | obj nv ev mv tv =>
  cases hn : extractTrim nv with
  | error u => exact Or.inr (Or.inl (by simp [hn]))
  | ok name =>
  cases he : extractTrim ev with
  | error u => exact Or.inr (Or.inl (by simp [hn, he]))
  | ok email =>
  cases hm : extractTrim mv with
  | error u => exact Or.inr (Or.inl (by simp [hn, he, hm]))
  | ok message =>
  cases ht : extractTrim tv with
  | error u => exact Or.inr (Or.inl (by simp [hn, he, hm, ht]))
  | ok token =>
  simp only [hn, he, hm, ht]
  by_cases v1 : (name.isEmpty || email.isEmpty || message.isEmpty || token.isEmpty) = true
  · exact Or.inr (Or.inr (Or.inr (Or.inr (Or.inl
      ⟨S "All fields are required", by simp [v1]⟩))))
  simp only [if_neg v1]
  by_cases v2 : (decide (name.length < 2) || decide (name.length > 100)) = true
  · exact Or.inr (Or.inr (Or.inr (Or.inr (Or.inl
      ⟨S "Name must be between 2 and 100 characters", by simp [v2]⟩))))
  simp only [if_neg v2]
  by_cases v3 : (!isValidEmail email) = true
  · exact Or.inr (Or.inr (Or.inr (Or.inr (Or.inl
      ⟨S "Invalid email address", by simp [v3]⟩))))
  simp only [if_neg v3]
  by_cases v4 : (decide (message.length < 10) || decide (message.length > 2000)) = true
  · exact Or.inr (Or.inr (Or.inr (Or.inr (Or.inl
      ⟨S "Message must be between 10 and 2000 characters", by simp [v4]⟩))))
  simp only [if_neg v4]
  cases c7 : (validateTurnstileToken ts).success.truthy with
  | false =>
    exact Or.inr (Or.inr (Or.inr (Or.inr (Or.inr (Or.inl ⟨token, by simp [c7], by trivial⟩)))))
  | true =>
  simp only [c7, Bool.not_true, Bool.false_eq_true, if_false, ite_false]
  cases c8 : hostnameAllowed (validateTurnstileToken ts).hostname with
  | false =>
    exact Or.inr (Or.inr (Or.inr (Or.inr (Or.inr (Or.inr (Or.inl ⟨token, by simp [c8], by trivial⟩))))))
  | true =>
  simp only [c8, Bool.not_true, Bool.false_eq_true, if_false, ite_false]
  cases c9 : sesOk with
  | false =>
    exact Or.inr (Or.inr (Or.inr (Or.inr (Or.inr (Or.inr (Or.inr (Or.inl
      ⟨token, buildEmailParams name email message now (ipOf req) (jsOrStr req.userAgent (S "Unknown")),
       by simp, by trivial, by trivial⟩)))))))
  | true =>
    exact Or.inr (Or.inr (Or.inr (Or.inr (Or.inr (Or.inr (Or.inr (Or.inr
      ⟨token, buildEmailParams name email message now (ipOf req) (jsOrStr req.userAgent (S "Unknown")),
       by simp, by trivial, by trivial⟩)))))))

/-- Iterating a request whose round writes nothing leaves the store
fixed forever. -/
theorem iterate_fix_of_no_writes (req : Request) (env : Env)
    (tsOutcome : SiteverifyOutcome) (sesOk : Bool) (now : Str) (store : Store)
    (h : kvWrites (fetch req env store tsOutcome sesOk now).2 = []) :
    ∀ n, iterateHandle req env tsOutcome sesOk now n store = store := by
  intro n
  induction n with
  | zero => rfl
  | succ n ih =>
    have hstep : (stepHandle req env tsOutcome sesOk now store).1 = store := by
      simp [stepHandle, applyEffects_no_writes _ h]
    simpa [iterateHandle, hstep] using ih

/-! ## C1 -/

/-- C1 counterexample: a submission meeting every condition the claim
lists (well-formed fields, verifier success with an allow-listed
hostname, stored count below 5 — here absent) for which the email
provider rejects the send.  The dispatch occurs, but no KeyValueStore
write happens, refuting the claimed "exactly one KeyValueStore write". -/
theorem c1_counterexample :
    (2 ≤ (jsTrim (S "Jo")).length ∧ (jsTrim (S "Jo")).length ≤ 100) ∧
    isValidEmail (jsTrim (S "jo@example.com")) = true ∧
    (10 ≤ (jsTrim (S "Hello there, this works!")).length ∧
      (jsTrim (S "Hello there, this works!")).length ≤ 2000) ∧
    (jsTrim (S "tok")).isEmpty = false ∧
    (validateTurnstileToken goodTs).success.truthy = true ∧
    hostnameAllowed (validateTurnstileToken goodTs).hostname = true ∧
    lookupStore [] (keyOf goodReq) = none ∧
    (sentEmails (fetch goodReq goodEnv [] goodTs false tnow).2).length = 1 ∧
    kvWrites (fetch goodReq goodEnv [] goodTs false tnow).2 = [] := by
  decide

/-- C1 (amended): for every valid submission that moreover arrives as a
POST with an allowed or absent Origin, a complete environment and a body
within the size bound, and whose send is accepted by the provider, the
handler performs exactly one email dispatch and exactly one KV write;
the written value is the previously read count (absent treated as 0)
plus 1 with the 3600-second window as TTL, and the effect trace places
the write strictly after the send.  If the send fails, the dispatch
happened but no write occurs. -/
theorem c1_valid_submission_effects (req : Request) (env : Env) (store : Store)
    (tsOutcome : SiteverifyOutcome) (now : Str) (nv ev mv tv : Str)
    (hOrigin : originOk req = true)
    (hMethod : req.method = S "POST")
    (hEnv : envOk env = true)
    (hRate : rateLimited (lookupStore store (keyOf req)) = false)
    (hLen : req.rawLen ≤ MAX_BODY_BYTES)
    (hParsed : req.parsed = .obj (.strv nv) (.strv ev) (.strv mv) (.strv tv))
    (hName : 2 ≤ (jsTrim nv).length ∧ (jsTrim nv).length ≤ 100)
    (hEmail : isValidEmail (jsTrim ev) = true)
    (hMsg : 10 ≤ (jsTrim mv).length ∧ (jsTrim mv).length ≤ 2000)
    (hTok : (jsTrim tv).isEmpty = false)
    (hTs : (validateTurnstileToken tsOutcome).success.truthy = true)
    (hHost : hostnameAllowed (validateTurnstileToken tsOutcome).hostname = true) :
    (sentEmails (fetch req env store tsOutcome true now).2).length = 1 ∧
    kvWrites (fetch req env store tsOutcome true now).2 =
      [(keyOf req, intToStr (parseIntOr0 (lookupStore store (keyOf req)) + 1),
        RATE_LIMIT_WINDOW)] ∧
    (fetch req env store tsOutcome true now).2 =
      [Effect.kvGet (keyOf req), Effect.tsVerify (jsTrim tv),
       Effect.sesSend (buildEmailParams (jsTrim nv) (jsTrim ev) (jsTrim mv) now (ipOf req)
         (jsOrStr req.userAgent (S "Unknown"))),
       Effect.kvPut (keyOf req) (intToStr (parseIntOr0 (lookupStore store (keyOf req)) + 1))
         RATE_LIMIT_WINDOW] ∧
    (fetch req env store tsOutcome true now).1.status = 200 ∧
    kvWrites (fetch req env store tsOutcome false now).2 = [] ∧
    (sentEmails (fetch req env store tsOutcome false now).2).length = 1 := by
  have hT := fetch_valid req env store tsOutcome true now nv ev mv tv hOrigin hMethod hEnv
    hRate hLen hParsed hName hEmail hMsg hTok hTs hHost
  have hF := fetch_valid req env store tsOutcome false now nv ev mv tv hOrigin hMethod hEnv
    hRate hLen hParsed hName hEmail hMsg hTok hTs hHost
  rw [hT, hF]
  simp [sentEmails, kvWrites, json]

/-- Instantiation of the C1 theorem on the concrete scenario request. -/
theorem c1_witness :
    (originOk goodReq = true ∧ goodReq.method = S "POST" ∧ envOk goodEnv = true ∧
     rateLimited (lookupStore [] (keyOf goodReq)) = false ∧
     goodReq.rawLen ≤ MAX_BODY_BYTES ∧
     goodReq.parsed = .obj (.strv (S "Jo")) (.strv (S "jo@example.com"))
       (.strv (S "Hello there, this works!")) (.strv (S "tok")) ∧
     (2 ≤ (jsTrim (S "Jo")).length ∧ (jsTrim (S "Jo")).length ≤ 100) ∧
     isValidEmail (jsTrim (S "jo@example.com")) = true ∧
     (10 ≤ (jsTrim (S "Hello there, this works!")).length ∧
       (jsTrim (S "Hello there, this works!")).length ≤ 2000) ∧
     (jsTrim (S "tok")).isEmpty = false ∧
     (validateTurnstileToken goodTs).success.truthy = true ∧
     hostnameAllowed (validateTurnstileToken goodTs).hostname = true) ∧
    ((sentEmails (fetch goodReq goodEnv [] goodTs true tnow).2).length = 1 ∧
     kvWrites (fetch goodReq goodEnv [] goodTs true tnow).2 =
       [(keyOf goodReq, intToStr (parseIntOr0 (lookupStore [] (keyOf goodReq)) + 1),
         RATE_LIMIT_WINDOW)] ∧
     (fetch goodReq goodEnv [] goodTs true tnow).2 =
       [Effect.kvGet (keyOf goodReq), Effect.tsVerify (jsTrim (S "tok")),
        Effect.sesSend (buildEmailParams (jsTrim (S "Jo")) (jsTrim (S "jo@example.com"))
          (jsTrim (S "Hello there, this works!")) tnow (ipOf goodReq)
          (jsOrStr goodReq.userAgent (S "Unknown"))),
        Effect.kvPut (keyOf goodReq) (intToStr (parseIntOr0 (lookupStore [] (keyOf goodReq)) + 1))
          RATE_LIMIT_WINDOW] ∧
     (fetch goodReq goodEnv [] goodTs true tnow).1.status = 200 ∧
     kvWrites (fetch goodReq goodEnv [] goodTs false tnow).2 = [] ∧
     (sentEmails (fetch goodReq goodEnv [] goodTs false tnow).2).length = 1) :=
  ⟨by decide,
   c1_valid_submission_effects goodReq goodEnv [] goodTs tnow
     (S "Jo") (S "jo@example.com") (S "Hello there, this works!") (S "tok")
     (by decide) (by decide) (by decide) (by decide) (by decide) (by decide)
     (by decide) (by decide) (by decide) (by decide) (by decide) (by decide)⟩

/-! ## C2 -/

/-- C2: every request answered with a 4xx status is rejected before the
dispatch step: no email is sent, no KV write occurs, the store is
unchanged, and resubmitting the same request any number of times leaves
the store (hence the rate-limit counter for the client IP) unchanged. -/
theorem c2_rejected_no_side_effects (req : Request) (env : Env) (store : Store)
    (tsOutcome : SiteverifyOutcome) (sesOk : Bool) (now : Str)
    (h1 : 400 ≤ (fetch req env store tsOutcome sesOk now).1.status)
    (h2 : (fetch req env store tsOutcome sesOk now).1.status < 500) :
    sentEmails (fetch req env store tsOutcome sesOk now).2 = [] ∧
    kvWrites (fetch req env store tsOutcome sesOk now).2 = [] ∧
    applyEffects store (fetch req env store tsOutcome sesOk now).2 = store ∧
    (∀ n, iterateHandle req env tsOutcome sesOk now n store = store) := by
  have main : sentEmails (fetch req env store tsOutcome sesOk now).2 = [] ∧
      kvWrites (fetch req env store tsOutcome sesOk now).2 = [] := by
    cases g1 : (!(jsOrStr req.origin []).isEmpty &&
        !hasStr ALLOWED_ORIGINS (jsOrStr req.origin [])) with
    | true => simp [fetch, g1, sentEmails, kvWrites]
    | false =>
      by_cases m1 : req.method = S "OPTIONS"
      · simp [fetch, g1, m1, sentEmails, kvWrites]
      · by_cases m2 : req.method = S "POST"
        · have hPO : ¬ (S "POST" = S "OPTIONS") := by decide
          rcases tryBlock_cases req env store tsOutcome sesOk now with
            h | h | ⟨ms, h, -⟩ | ⟨ms, h⟩ | ⟨ms, h⟩ | ⟨t, h, -⟩ | ⟨t, h, -⟩ |
            ⟨t, p, h, -, -⟩ | ⟨t, p, h, -, -⟩
          all_goals simp only [fetch, g1, m1, m2, h, json, Bool.false_eq_true, if_false,
            ite_false, ite_true, if_true, Bool.not_true, Bool.not_false, decide_True,
            decide_False, decide_not, eq_self_iff_true, if_neg hPO] at h1 h2 ⊢
          all_goals try simp [sentEmails, kvWrites]
          all_goals omega
        · simp [fetch, g1, m1, m2, sentEmails, kvWrites]
  exact ⟨main.1, main.2, applyEffects_no_writes _ main.2 store,
    iterate_fix_of_no_writes req env tsOutcome sesOk now store main.2⟩

/-- Instantiation of the C2 theorem: a malformed-JSON POST is rejected
with a 4xx and leaves no side effect however often it is resubmitted. -/
theorem c2_witness :
    (400 ≤ (fetch { goodReq with parsed := .malformed } goodEnv [] goodTs true tnow).1.status ∧
     (fetch { goodReq with parsed := .malformed } goodEnv [] goodTs true tnow).1.status < 500) ∧
    (sentEmails (fetch { goodReq with parsed := .malformed } goodEnv [] goodTs true tnow).2 = [] ∧
     kvWrites (fetch { goodReq with parsed := .malformed } goodEnv [] goodTs true tnow).2 = [] ∧
     applyEffects [] (fetch { goodReq with parsed := .malformed } goodEnv [] goodTs true tnow).2 = [] ∧
     (∀ n, iterateHandle { goodReq with parsed := .malformed } goodEnv goodTs true tnow n [] = [])) :=
  ⟨by decide,
   c2_rejected_no_side_effects { goodReq with parsed := .malformed } goodEnv [] goodTs true tnow
     (by decide) (by decide)⟩

/-! ## C3 -/

/-- C3 counterexample: the response to a request with a disallowed
Origin is a 403 that carries neither the CORS headers (`Vary: Origin`)
nor the security headers (`X-Content-Type-Options`), refuting the claim
that every response carries them. -/
theorem c3_counterexample :
    (fetch { goodReq with origin := some (S "https://evil.example") }
      goodEnv [] goodTs true tnow).1.status = 403 ∧
    ((S "Vary", S "Origin") ∉
      (fetch { goodReq with origin := some (S "https://evil.example") }
        goodEnv [] goodTs true tnow).1.headers) ∧
    ((S "X-Content-Type-Options", S "nosniff") ∉
      (fetch { goodReq with origin := some (S "https://evil.example") }
        goodEnv [] goodTs true tnow).1.headers) := by
  decide

/-- The allow-origin key differs from the Content-Type key. -/
theorem ao_ne_ct (v : Str) :
    ¬((S "Access-Control-Allow-Origin", v) =
      (S "Content-Type", S "application/json; charset=utf-8")) := by
  intro h
  have hk : S "Access-Control-Allow-Origin" = S "Content-Type" := congrArg Prod.fst h
  exact absurd hk (by decide)

/-- The echoed allow-origin header is in the CORS+security header set
exactly when the origin is nonempty and allow-listed, with the origin
itself as value. -/
theorem ao_mem_hdrs (origin v : Str) :
    ((S "Access-Control-Allow-Origin", v) ∈ buildCorsHeaders origin ++ buildSecurityHeaders) ↔
      ((!origin.isEmpty && hasStr ALLOWED_ORIGINS origin) = true ∧ v = origin) := by
  have k1 : ¬(S "Access-Control-Allow-Origin" = S "Access-Control-Allow-Methods") := by decide
  have k2 : ¬(S "Access-Control-Allow-Origin" = S "Access-Control-Allow-Headers") := by decide
  have k3 : ¬(S "Access-Control-Allow-Origin" = S "Access-Control-Max-Age") := by decide
  have k4 : ¬(S "Access-Control-Allow-Origin" = S "Vary") := by decide
  have k5 : ¬(S "Access-Control-Allow-Origin" = S "X-Content-Type-Options") := by decide
  have k6 : ¬(S "Access-Control-Allow-Origin" = S "X-Frame-Options") := by decide
  have k7 : ¬(S "Access-Control-Allow-Origin" = S "X-XSS-Protection") := by decide
  have k8 : ¬(S "Access-Control-Allow-Origin" = S "Referrer-Policy") := by decide
  have k9 : ¬(S "Access-Control-Allow-Origin" = S "Content-Security-Policy") := by decide
  unfold buildCorsHeaders buildSecurityHeaders corsFixedHeaders
  cases hc : (!origin.isEmpty && hasStr ALLOWED_ORIGINS origin) with
  | true => simp [Prod.mk.injEq, k1, k2, k3, k4, k5, k6, k7, k8, k9]
  | false => simp [Prod.mk.injEq, k1, k2, k3, k4, k5, k6, k7, k8, k9]

/-- The nine fixed CORS and security headers are always present in a
`buildCorsHeaders origin ++ buildSecurityHeaders` list. -/
theorem std_subset_hdrs (origin : Str) :
    ∀ p ∈ corsFixedHeaders ++ buildSecurityHeaders,
      p ∈ buildCorsHeaders origin ++ buildSecurityHeaders := by
  intro p hp
  unfold buildCorsHeaders
  split
  · rcases List.mem_append.mp hp with h | h
    · exact List.mem_append_left _ (List.mem_append_left _ h)
    · exact List.mem_append_right _ h
  · exact hp

/-- C3 (amended): on every response, the `Access-Control-Allow-Origin`
header is present iff the request Origin is nonempty and on the
allow-list, and then its value echoes that origin exactly; and every
response to a request whose origin passes the origin gate (allowed or
absent) carries all four fixed CORS headers (including `Vary: Origin`)
and all five security headers.  (The 403 for a disallowed origin is
excluded: it carries only `Content-Type`.) -/
theorem c3_headers_on_responses (req : Request) (env : Env) (store : Store)
    (tsOutcome : SiteverifyOutcome) (sesOk : Bool) (now : Str) :
    (∀ v, ((S "Access-Control-Allow-Origin", v) ∈
        (fetch req env store tsOutcome sesOk now).1.headers) ↔
      ((!(jsOrStr req.origin []).isEmpty &&
          hasStr ALLOWED_ORIGINS (jsOrStr req.origin [])) = true ∧
        v = jsOrStr req.origin [])) ∧
    (originOk req = true →
      ∀ p ∈ corsFixedHeaders ++ buildSecurityHeaders,
        p ∈ (fetch req env store tsOutcome sesOk now).1.headers) := by
  cases g1 : (!(jsOrStr req.origin []).isEmpty &&
      !hasStr ALLOWED_ORIGINS (jsOrStr req.origin [])) with
  | true =>
    have hg : (!(jsOrStr req.origin []).isEmpty) = true ∧
        (!hasStr ALLOWED_ORIGINS (jsOrStr req.origin [])) = true := by
      simpa [Bool.and_eq_true] using g1
    have hns : hasStr ALLOWED_ORIGINS (jsOrStr req.origin []) = false := by
      simpa using hg.2
    have hne : ¬(jsOrStr req.origin [] = []) := by
      have := hg.1
      simp only [Bool.not_eq_true', List.isEmpty_eq_false] at this
      simpa using this
    constructor
    · intro v
      simp [fetch, g1, json, List.mem_cons, ao_ne_ct v, hns, hne]
    · intro hOr
      exact absurd g1 (by simp [origin_guard_false req hOr])
  | false =>
    by_cases m1 : req.method = S "OPTIONS"
    · constructor
      · intro v
        simpa [fetch, g1, m1, json] using ao_mem_hdrs (jsOrStr req.origin []) v
      · intro _ p hp
        simpa [fetch, g1, m1, json] using std_subset_hdrs (jsOrStr req.origin []) p hp
    · by_cases m2 : req.method = S "POST"
      · have hPO : ¬ (S "POST" = S "OPTIONS") := by decide
        rcases tryBlock_cases req env store tsOutcome sesOk now with
          h | h | ⟨ms, h, -⟩ | ⟨ms, h⟩ | ⟨ms, h⟩ | ⟨t, h, -⟩ | ⟨t, h, -⟩ |
          ⟨t, p, h, -, -⟩ | ⟨t, p, h, -, -⟩
        all_goals constructor
        all_goals first
          | (intro v
             simp only [fetch, g1, m1, m2, h, json, Bool.false_eq_true, if_false,
               ite_false, ite_true, if_true, if_neg hPO]
             simp [List.mem_cons, ao_ne_ct v, ao_mem_hdrs (jsOrStr req.origin []) v])
          | (intro _ p2 hp
             simp only [fetch, g1, m1, m2, h, json, Bool.false_eq_true, if_false,
               ite_false, ite_true, if_true, if_neg hPO]
             exact List.mem_cons_of_mem _ (std_subset_hdrs (jsOrStr req.origin []) p2 hp))
      · constructor
        · intro v
          simp only [fetch, g1, m1, m2, json, Bool.false_eq_true, if_false,
            ite_false, ite_true, if_true]
          simp [List.mem_cons, ao_ne_ct v, ao_mem_hdrs (jsOrStr req.origin []) v, m1, m2]
        · intro _ p2 hp
          simp only [fetch, g1, m1, m2, json, Bool.false_eq_true, if_false,
            ite_false, ite_true, if_true]
          simp only [m1, m2, if_false, ite_false, decide_False, Bool.not_false, if_true, ite_true]
          exact List.mem_cons_of_mem _ (std_subset_hdrs (jsOrStr req.origin []) p2 hp)

/-- Instantiation of the C3 theorem: a response to an allowed-origin
request carries `Vary: Origin` and echoes the allow-origin header. -/
theorem c3_witness :
    (originOk goodReq = true ∧
     (S "Vary", S "Origin") ∈ corsFixedHeaders ++ buildSecurityHeaders) ∧
    ((S "Vary", S "Origin") ∈ (fetch goodReq goodEnv [] goodTs true tnow).1.headers ∧
     ((S "Access-Control-Allow-Origin", S "https://raduhhr.xyz") ∈
        (fetch goodReq goodEnv [] goodTs true tnow).1.headers ↔
      ((!(jsOrStr goodReq.origin []).isEmpty &&
          hasStr ALLOWED_ORIGINS (jsOrStr goodReq.origin [])) = true ∧
        S "https://raduhhr.xyz" = jsOrStr goodReq.origin []))) :=
  ⟨⟨by decide, by decide⟩,
   (c3_headers_on_responses goodReq goodEnv [] goodTs true tnow).2 (by decide)
     (S "Vary", S "Origin") (by decide),
   (c3_headers_on_responses goodReq goodEnv [] goodTs true tnow).1
     (S "https://raduhhr.xyz")⟩

/-- A POST passing the origin and configuration checks whose stored
counter triggers the rate-limit guard gets the 429 response after only
the KV read, whatever the body holds. -/
theorem fetch_rate_limited (req : Request) (env : Env) (store : Store)
    (tsOutcome : SiteverifyOutcome) (sesOk : Bool) (now : Str)
    (hOrigin : originOk req = true)
    (hMethod : req.method = S "POST")
    (hEnv : envOk env = true)
    (hRate : rateLimited (lookupStore store (keyOf req)) = true) :
    fetch req env store tsOutcome sesOk now =
      (json (.errJson (S "Rate limit exceeded. Please try again in an hour.")) 429
        (buildCorsHeaders (jsOrStr req.origin []) ++ buildSecurityHeaders),
       [Effect.kvGet (keyOf req)]) := by
  have hguard := origin_guard_false req hOrigin
  have henv : envTruthy env.turnstileSecretKey = true ∧ envTruthy env.awsAccessKeyId = true ∧
      envTruthy env.awsSecretAccessKey = true ∧ env.rateLimiterPresent = true := by
    unfold envOk at hEnv
    simp only [Bool.and_eq_true] at hEnv
    exact ⟨hEnv.1.1.1, hEnv.1.1.2, hEnv.1.2, hEnv.2⟩
  obtain ⟨h1, h2, h3, h4⟩ := henv
  have hPO : ¬ (S "POST" = S "OPTIONS") := by decide
  simp only [fetch, tryBlock, hguard, hMethod, h1, h2, h3, h4, hRate,
    Bool.not_true, Bool.not_false, Bool.false_eq_true, if_false, if_true,
    ite_false, ite_true, if_neg hPO]
  simp

/-- A POST passing the origin, configuration and rate-limit checks
whose body length exceeds the bound gets the 413 response after only
the KV read, whatever the parse outcome. -/
theorem fetch_oversize (req : Request) (env : Env) (store : Store)
    (tsOutcome : SiteverifyOutcome) (sesOk : Bool) (now : Str)
    (hOrigin : originOk req = true)
    (hMethod : req.method = S "POST")
    (hEnv : envOk env = true)
    (hRate : rateLimited (lookupStore store (keyOf req)) = false)
    (hLen : req.rawLen > MAX_BODY_BYTES) :
    fetch req env store tsOutcome sesOk now =
      (json (.errJson (S "Payload too large")) 413
        (buildCorsHeaders (jsOrStr req.origin []) ++ buildSecurityHeaders),
       [Effect.kvGet (keyOf req)]) := by
  have hguard := origin_guard_false req hOrigin
  have henv : envTruthy env.turnstileSecretKey = true ∧ envTruthy env.awsAccessKeyId = true ∧
      envTruthy env.awsSecretAccessKey = true ∧ env.rateLimiterPresent = true := by
    unfold envOk at hEnv
    simp only [Bool.and_eq_true] at hEnv
    exact ⟨hEnv.1.1.1, hEnv.1.1.2, hEnv.1.2, hEnv.2⟩
  obtain ⟨h1, h2, h3, h4⟩ := henv
  have hPO : ¬ (S "POST" = S "OPTIONS") := by decide
  simp only [fetch, tryBlock, hguard, hMethod, h1, h2, h3, h4, hRate, hLen,
    Bool.not_true, Bool.not_false, Bool.false_eq_true, if_false, if_true,
    ite_false, ite_true, if_neg hPO]
  simp

/-! ## C4 -/

/-- C4 counterexample: a POST whose body exceeds 10,000 bytes but whose
client IP is already at the rate limit is answered 429, not 413 — the
rate-limit check runs before the size guard, so the claim quantified
over every oversized POST fails. -/
theorem c4_counterexample :
    { goodReq with rawLen := 20000 }.method = S "POST" ∧
    (20000 : Nat) > MAX_BODY_BYTES ∧
    (fetch { goodReq with rawLen := 20000 } goodEnv
      [(keyOf goodReq, S "5")] goodTs true tnow).1.status = 429 ∧
    ¬((fetch { goodReq with rawLen := 20000 } goodEnv
      [(keyOf goodReq, S "5")] goodTs true tnow).1.status = 413) := by
  decide

/-- C4 (amended): every POST that passes the origin gate, configuration
check and rate-limit check and whose body exceeds 10,000 bytes is
answered 413 Payload-Too-Large, and the size check precedes JSON
parsing: the whole response is independent of the parse outcome. -/
theorem c4_payload_too_large (req : Request) (env : Env) (store : Store)
    (tsOutcome : SiteverifyOutcome) (sesOk : Bool) (now : Str)
    (hOrigin : originOk req = true)
    (hMethod : req.method = S "POST")
    (hEnv : envOk env = true)
    (hRate : rateLimited (lookupStore store (keyOf req)) = false)
    (hLen : req.rawLen > MAX_BODY_BYTES) :
    (fetch req env store tsOutcome sesOk now).1.status = 413 ∧
    (fetch req env store tsOutcome sesOk now).1.body = .errJson (S "Payload too large") ∧
    (fetch req env store tsOutcome sesOk now).2 = [Effect.kvGet (keyOf req)] ∧
    (∀ p2 : ParseResult, fetch { req with parsed := p2 } env store tsOutcome sesOk now =
      fetch req env store tsOutcome sesOk now) := by
  have h0 := fetch_oversize req env store tsOutcome sesOk now hOrigin hMethod hEnv hRate hLen
  refine ⟨by simp [h0, json], by simp [h0, json], by simp [h0], ?_⟩
  intro p2
  have h2 := fetch_oversize { req with parsed := p2 } env store tsOutcome sesOk now
    hOrigin hMethod hEnv hRate hLen
  rw [h0, h2]
  rfl

/-- Instantiation of the C4 theorem on a concrete oversized POST. -/
theorem c4_witness :
    (originOk { goodReq with rawLen := 20000 } = true ∧
     { goodReq with rawLen := 20000 }.method = S "POST" ∧
     envOk goodEnv = true ∧
     rateLimited (lookupStore [] (keyOf { goodReq with rawLen := 20000 })) = false ∧
     { goodReq with rawLen := 20000 }.rawLen > MAX_BODY_BYTES) ∧
    ((fetch { goodReq with rawLen := 20000 } goodEnv [] goodTs true tnow).1.status = 413 ∧
     (fetch { goodReq with rawLen := 20000 } goodEnv [] goodTs true tnow).1.body =
       .errJson (S "Payload too large") ∧
     (fetch { goodReq with rawLen := 20000 } goodEnv [] goodTs true tnow).2 =
       [Effect.kvGet (keyOf { goodReq with rawLen := 20000 })]) :=
  ⟨by decide,
   (c4_payload_too_large { goodReq with rawLen := 20000 } goodEnv [] goodTs true tnow
     (by decide) (by decide) (by decide) (by decide) (by decide)).1,
   (c4_payload_too_large { goodReq with rawLen := 20000 } goodEnv [] goodTs true tnow
     (by decide) (by decide) (by decide) (by decide) (by decide)).2.1,
   (c4_payload_too_large { goodReq with rawLen := 20000 } goodEnv [] goodTs true tnow
     (by decide) (by decide) (by decide) (by decide) (by decide)).2.2.1⟩

/-! ## C5 -/

/-- C5 counterexample: a POST whose client IP has a stored count of 5
but whose Origin is off the allow-list is answered 403, not 429, so the
claim quantified over every such POST fails. -/
theorem c5_counterexample :
    rateLimited (lookupStore [(keyOf goodReq, S "5")] (keyOf goodReq)) = true ∧
    { goodReq with origin := some (S "https://evil.example") }.method = S "POST" ∧
    (fetch { goodReq with origin := some (S "https://evil.example") } goodEnv
      [(keyOf goodReq, S "5")] goodTs true tnow).1.status = 403 ∧
    sentEmails (fetch { goodReq with origin := some (S "https://evil.example") } goodEnv
      [(keyOf goodReq, S "5")] goodTs true tnow).2 = [] := by
  decide

/-- C5 (amended): every POST passing the origin gate and configuration
check whose client IP has a stored count triggering the rate-limit
guard (truthy value parsing to at least 5) is answered 429 with no
email dispatch, after only the KV read and before the body is
consulted — the response is independent of body length and parse
outcome.  Moreover, in the concrete six-round scenario from a fresh
store, rounds 1-5 succeed with one dispatch each (the 5th included)
and round 6 is answered 429 with no dispatch. -/
theorem c5_rate_limit_rejection (req : Request) (env : Env) (store : Store)
    (tsOutcome : SiteverifyOutcome) (sesOk : Bool) (now : Str)
    (hOrigin : originOk req = true)
    (hMethod : req.method = S "POST")
    (hEnv : envOk env = true)
    (hRate : rateLimited (lookupStore store (keyOf req)) = true) :
    (fetch req env store tsOutcome sesOk now).1.status = 429 ∧
    (fetch req env store tsOutcome sesOk now).1.body =
      .errJson (S "Rate limit exceeded. Please try again in an hour.") ∧
    (fetch req env store tsOutcome sesOk now).2 = [Effect.kvGet (keyOf req)] ∧
    sentEmails (fetch req env store tsOutcome sesOk now).2 = [] ∧
    (∀ (len2 : Nat) (p2 : ParseResult),
      fetch { req with rawLen := len2, parsed := p2 } env store tsOutcome sesOk now =
        fetch req env store tsOutcome sesOk now) ∧
    runRounds goodReq goodEnv goodTs true tnow 6 [] =
      [(200, 1), (200, 1), (200, 1), (200, 1), (200, 1), (429, 0)] := by
  have h0 := fetch_rate_limited req env store tsOutcome sesOk now hOrigin hMethod hEnv hRate
  refine ⟨by simp [h0, json], by simp [h0, json], by simp [h0],
    by simp [h0, sentEmails], ?_, by decide⟩
  intro len2 p2
  have h2 := fetch_rate_limited { req with rawLen := len2, parsed := p2 } env store
    tsOutcome sesOk now hOrigin hMethod hEnv hRate
  rw [h0, h2]
  rfl

/-- Instantiation of the C5 theorem on the 6th submission of a
rate-limited IP. -/
theorem c5_witness :
    (originOk goodReq = true ∧ goodReq.method = S "POST" ∧ envOk goodEnv = true ∧
     rateLimited (lookupStore [(keyOf goodReq, S "5")] (keyOf goodReq)) = true) ∧
    ((fetch goodReq goodEnv [(keyOf goodReq, S "5")] goodTs true tnow).1.status = 429 ∧
     sentEmails (fetch goodReq goodEnv [(keyOf goodReq, S "5")] goodTs true tnow).2 = []) :=
  ⟨by decide,
   (c5_rate_limit_rejection goodReq goodEnv [(keyOf goodReq, S "5")] goodTs true tnow
     (by decide) (by decide) (by decide) (by decide)).1,
   (c5_rate_limit_rejection goodReq goodEnv [(keyOf goodReq, S "5")] goodTs true tnow
     (by decide) (by decide) (by decide) (by decide)).2.2.2.1⟩

/-! ## C6 -/

/-- C6: whenever the handler actually consults the TokenVerifier (the
verify call is in the effect trace) and the verifier reports success
with a hostname outside the allow-list (absent, non-string or unlisted),
the handler answers 400 with the generic invalid-verification-context
message and dispatches no email. -/
theorem c6_bad_hostname_rejected (req : Request) (env : Env) (store : Store)
    (tsOutcome : SiteverifyOutcome) (sesOk : Bool) (now : Str)
    (hCalled : ∃ t, Effect.tsVerify t ∈ (fetch req env store tsOutcome sesOk now).2)
    (hTs : (validateTurnstileToken tsOutcome).success.truthy = true)
    (hHost : hostnameAllowed (validateTurnstileToken tsOutcome).hostname = false) :
    (fetch req env store tsOutcome sesOk now).1.status = 400 ∧
    (fetch req env store tsOutcome sesOk now).1.body =
      .errJson (S "Invalid verification context") ∧
    sentEmails (fetch req env store tsOutcome sesOk now).2 = [] := by
  obtain ⟨t0, ht0⟩ := hCalled
  cases g1 : (!(jsOrStr req.origin []).isEmpty &&
      !hasStr ALLOWED_ORIGINS (jsOrStr req.origin [])) with
  | true => simp [fetch, g1] at ht0
  | false =>
    by_cases m1 : req.method = S "OPTIONS"
    · simp [fetch, g1, m1] at ht0
    · by_cases m2 : req.method = S "POST"
      · have hPO : ¬ (S "POST" = S "OPTIONS") := by decide
        rcases tryBlock_cases req env store tsOutcome sesOk now with
          h | h | ⟨ms, h, -⟩ | ⟨ms, h⟩ | ⟨ms, h⟩ | ⟨t, h, hsf⟩ | ⟨t, h, hbad⟩ |
          ⟨t, p, h, hh, -⟩ | ⟨t, p, h, hh, -⟩
        · simp [fetch, g1, m1, m2, h, if_neg hPO] at ht0
        · simp [fetch, g1, m1, m2, h, if_neg hPO] at ht0
        · simp [fetch, g1, m1, m2, h, if_neg hPO] at ht0
        · simp [fetch, g1, m1, m2, h, if_neg hPO] at ht0
        · simp [fetch, g1, m1, m2, h, if_neg hPO] at ht0
        · exact absurd hTs (by simp [hsf])
        · simp only [fetch, g1, m1, m2, h, json, Bool.false_eq_true, if_false,
            ite_false, ite_true, if_true, if_neg hPO]
          simp [sentEmails]
        · exact absurd hHost (by simp [hh])
        · exact absurd hHost (by simp [hh])
      · simp [fetch, g1, m1, m2] at ht0

/-- Instantiation of the C6 theorem: verifier success for the unlisted
hostname evil.example is rejected 400 with no dispatch. -/
theorem c6_witness :
    ((∃ t, Effect.tsVerify t ∈
        (fetch goodReq goodEnv []
          (.ok { success := .boolv true, hostname := .strv (S "evil.example") })
          true tnow).2) ∧
     (validateTurnstileToken
        (.ok { success := .boolv true, hostname := .strv (S "evil.example") })).success.truthy
       = true ∧
     hostnameAllowed (validateTurnstileToken
        (.ok { success := .boolv true, hostname := .strv (S "evil.example") })).hostname
       = false) ∧
    ((fetch goodReq goodEnv []
        (.ok { success := .boolv true, hostname := .strv (S "evil.example") })
        true tnow).1.status = 400 ∧
     (fetch goodReq goodEnv []
        (.ok { success := .boolv true, hostname := .strv (S "evil.example") })
        true tnow).1.body = .errJson (S "Invalid verification context") ∧
     sentEmails (fetch goodReq goodEnv []
        (.ok { success := .boolv true, hostname := .strv (S "evil.example") })
        true tnow).2 = []) :=
  ⟨⟨⟨S "tok", by decide⟩, by decide, by decide⟩,
   c6_bad_hostname_rejected goodReq goodEnv []
     (.ok { success := .boolv true, hostname := .strv (S "evil.example") }) true tnow
     ⟨S "tok", by decide⟩ (by decide) (by decide)⟩

/-- Is the second list a prefix of the first? -/
def startsWith : Str → Str → Bool
  | _, [] => true
  | [], _ :: _ => false
  | h :: hs, c :: cs => h = c && startsWith hs cs

/-- Does the second list occur contiguously inside the first? -/
def containsSub : Str → Str → Bool
  | [], sub => sub.isEmpty
  | c :: rest, sub => startsWith (c :: rest) sub || containsSub rest sub

theorem startsWith_self_append (x b : Str) : startsWith (x ++ b) x = true := by
  induction x with
  | nil => cases b <;> rfl
  | cons c cs ih => simp [startsWith, ih]

theorem containsSub_self_append (x b : Str) : containsSub (x ++ b) x = true := by
  cases x with
  | nil =>
    cases b with
    | nil => rfl
    | cons d ds => simp [containsSub, startsWith]
  | cons c cs =>
    simp only [List.cons_append, containsSub, Bool.or_eq_true]
    exact Or.inl (by simpa using startsWith_self_append (c :: cs) b)

theorem containsSub_prepend (s t x : Str) (h : containsSub t x = true) :
    containsSub (s ++ t) x = true := by
  induction s with
  | nil => simpa using h
  | cons c cs ih =>
    simp only [List.cons_append, containsSub, Bool.or_eq_true]
    exact Or.inr (by simpa using ih)

/-- A message embedding a script tag, for the round-trip escaping
scenario. -/
def scriptMsg : Str := S "Hi <script>alert(1)</script> thanks!"

set_option maxRecDepth 4000 in
/-- C7: on every accepted submission the dispatched email plaintext
body contains the trimmed name, email and message verbatim, while the
HTML body contains the `escapeHtml` image of each interpolated value
(name, email, message, timestamp, IP, user agent); in particular a
message containing a script tag appears entity-escaped in the HTML body
and verbatim in the plaintext body. -/
theorem c7_escaping (req : Request) (env : Env) (store : Store)
    (tsOutcome : SiteverifyOutcome) (now : Str) (nv ev mv tv : Str)
    (hOrigin : originOk req = true)
    (hMethod : req.method = S "POST")
    (hEnv : envOk env = true)
    (hRate : rateLimited (lookupStore store (keyOf req)) = false)
    (hLen : req.rawLen ≤ MAX_BODY_BYTES)
    (hParsed : req.parsed = .obj (.strv nv) (.strv ev) (.strv mv) (.strv tv))
    (hName : 2 ≤ (jsTrim nv).length ∧ (jsTrim nv).length ≤ 100)
    (hEmail : isValidEmail (jsTrim ev) = true)
    (hMsg : 10 ≤ (jsTrim mv).length ∧ (jsTrim mv).length ≤ 2000)
    (hTok : (jsTrim tv).isEmpty = false)
    (hTs : (validateTurnstileToken tsOutcome).success.truthy = true)
    (hHost : hostnameAllowed (validateTurnstileToken tsOutcome).hostname = true) :
    (∀ p ∈ sentEmails (fetch req env store tsOutcome true now).2,
      containsSub p.textBody (jsTrim nv) = true ∧
      containsSub p.textBody (jsTrim ev) = true ∧
      containsSub p.textBody (jsTrim mv) = true ∧
      containsSub p.htmlBody (escapeHtml (jsTrim nv)) = true ∧
      containsSub p.htmlBody (escapeHtml (jsTrim ev)) = true ∧
      containsSub p.htmlBody (escapeHtml (jsTrim mv)) = true ∧
      containsSub p.htmlBody (escapeHtml now) = true ∧
      containsSub p.htmlBody (escapeHtml (ipOf req)) = true ∧
      containsSub p.htmlBody (escapeHtml (jsOrStr req.userAgent (S "Unknown"))) = true) ∧
    (∀ p ∈ sentEmails (fetch (mkReq (S "Jo") (S "jo@example.com") scriptMsg)
        goodEnv [] goodTs true tnow).2,
      containsSub p.htmlBody (S "&lt;script&gt;alert(1)&lt;/script&gt;") = true ∧
      containsSub p.textBody (S "<script>alert(1)</script>") = true) := by
  constructor
  · have hT := fetch_valid req env store tsOutcome true now nv ev mv tv hOrigin hMethod hEnv
      hRate hLen hParsed hName hEmail hMsg hTok hTs hHost
    rw [hT]
    intro p hp
    simp [sentEmails] at hp
    subst hp
    refine ⟨?_, ?_, ?_, ?_, ?_, ?_, ?_, ?_, ?_⟩
    all_goals simp only [buildEmailParams, textBodyOf, htmlBodyOf, List.append_assoc]
    all_goals repeat (first
      | exact containsSub_self_append _ _
      | apply containsSub_prepend)
  · decide

set_option maxRecDepth 4000 in
/-- Instantiation of the C7 theorem on the script-tag message. -/
theorem c7_witness :
    (originOk (mkReq (S "Jo") (S "jo@example.com") scriptMsg) = true ∧
     (mkReq (S "Jo") (S "jo@example.com") scriptMsg).method = S "POST" ∧
     envOk goodEnv = true ∧
     rateLimited (lookupStore [] (keyOf (mkReq (S "Jo") (S "jo@example.com") scriptMsg))) = false ∧
     (mkReq (S "Jo") (S "jo@example.com") scriptMsg).rawLen ≤ MAX_BODY_BYTES ∧
     (mkReq (S "Jo") (S "jo@example.com") scriptMsg).parsed =
       .obj (.strv (S "Jo")) (.strv (S "jo@example.com")) (.strv scriptMsg) (.strv (S "tok")) ∧
     isValidEmail (jsTrim (S "jo@example.com")) = true ∧
     (10 ≤ (jsTrim scriptMsg).length ∧ (jsTrim scriptMsg).length ≤ 2000)) ∧
    ((∀ p ∈ sentEmails (fetch (mkReq (S "Jo") (S "jo@example.com") scriptMsg)
        goodEnv [] goodTs true tnow).2,
      containsSub p.textBody (jsTrim (S "Jo")) = true ∧
      containsSub p.textBody (jsTrim (S "jo@example.com")) = true ∧
      containsSub p.textBody (jsTrim scriptMsg) = true ∧
      containsSub p.htmlBody (escapeHtml (jsTrim (S "Jo"))) = true ∧
      containsSub p.htmlBody (escapeHtml (jsTrim (S "jo@example.com"))) = true ∧
      containsSub p.htmlBody (escapeHtml (jsTrim scriptMsg)) = true ∧
      containsSub p.htmlBody (escapeHtml tnow) = true ∧
      containsSub p.htmlBody
        (escapeHtml (ipOf (mkReq (S "Jo") (S "jo@example.com") scriptMsg))) = true ∧
      containsSub p.htmlBody
        (escapeHtml (jsOrStr (mkReq (S "Jo") (S "jo@example.com") scriptMsg).userAgent
          (S "Unknown"))) = true) ∧
     (∀ p ∈ sentEmails (fetch (mkReq (S "Jo") (S "jo@example.com") scriptMsg)
        goodEnv [] goodTs true tnow).2,
      containsSub p.htmlBody (S "&lt;script&gt;alert(1)&lt;/script&gt;") = true ∧
      containsSub p.textBody (S "<script>alert(1)</script>") = true)) :=
  ⟨⟨by decide, by decide, by decide, by decide, by decide, by decide, by decide, by decide⟩,
   c7_escaping (mkReq (S "Jo") (S "jo@example.com") scriptMsg) goodEnv [] goodTs tnow
     (S "Jo") (S "jo@example.com") scriptMsg (S "tok")
     (by decide) (by decide) (by decide) (by decide) (by decide) (by decide)
     (by decide) (by decide) (by decide) (by decide) (by decide) (by decide)⟩

/-- An email containing CR, LF or TAB is always rejected by
`isValidEmail`. -/
theorem isValidEmail_ctrl (e : Str) (c : Char) (hc : c ∈ e)
    (hctrl : c = '\r' ∨ c = '\n' ∨ c = '\t') : isValidEmail e = false := by
  unfold isValidEmail
  split
  · rfl
  · have hB : e.any (fun d => d = '\r' || d = '\n' || d = '\t') = true := by
      refine List.any_eq_true.mpr ⟨c, hc, ?_⟩
      rcases hctrl with h | h | h <;> simp [h]
    simp [hB]

/-- Dropping whitespace from a replicate of a non-whitespace character
is the identity. -/
theorem dropWhile_replicate_nonws (n : Nat) (c : Char) (h : isJsWhitespace c = false) :
    (List.replicate n c).dropWhile isJsWhitespace = List.replicate n c := by
  cases n with
  | zero => rfl
  | succ n => simp [List.replicate_succ, List.dropWhile_cons, h]

/-- Trimming a replicate of a non-whitespace character is the
identity. -/
theorem jsTrim_replicate (n : Nat) (c : Char) (h : isJsWhitespace c = false) :
    jsTrim (List.replicate n c) = List.replicate n c := by
  unfold jsTrim
  rw [dropWhile_replicate_nonws n c h, List.reverse_replicate,
    dropWhile_replicate_nonws n c h, List.reverse_replicate]

/-- A submission valid up to the message-length rule whose trimmed
message is nonempty but out of the 10-2000 bound is answered with the
specific message-length 400. -/
theorem fetch_bad_message (req : Request) (env : Env) (store : Store)
    (tsOutcome : SiteverifyOutcome) (sesOk : Bool) (now : Str)
    (nv ev mv tv : Str)
    (hOrigin : originOk req = true)
    (hMethod : req.method = S "POST")
    (hEnv : envOk env = true)
    (hRate : rateLimited (lookupStore store (keyOf req)) = false)
    (hLen : req.rawLen ≤ MAX_BODY_BYTES)
    (hParsed : req.parsed = .obj (.strv nv) (.strv ev) (.strv mv) (.strv tv))
    (hName : 2 ≤ (jsTrim nv).length ∧ (jsTrim nv).length ≤ 100)
    (hEmail : isValidEmail (jsTrim ev) = true)
    (hMsgNe : (jsTrim mv).isEmpty = false)
    (hBad : (jsTrim mv).length < 10 ∨ (jsTrim mv).length > 2000)
    (hTok : (jsTrim tv).isEmpty = false) :
    fetch req env store tsOutcome sesOk now =
      (json (.errJson (S "Message must be between 10 and 2000 characters")) 400
        (buildCorsHeaders (jsOrStr req.origin []) ++ buildSecurityHeaders),
       [Effect.kvGet (keyOf req)]) := by
  have hguard := origin_guard_false req hOrigin
  have henv : envTruthy env.turnstileSecretKey = true ∧ envTruthy env.awsAccessKeyId = true ∧
      envTruthy env.awsSecretAccessKey = true ∧ env.rateLimiterPresent = true := by
    unfold envOk at hEnv
    simp only [Bool.and_eq_true] at hEnv
    exact ⟨hEnv.1.1.1, hEnv.1.1.2, hEnv.1.2, hEnv.2⟩
  obtain ⟨h1, h2, h3, h4⟩ := henv
  have hNe : (jsTrim nv).isEmpty = false := not_isEmpty_of_length _ (by omega)
  have hEe : (jsTrim ev).isEmpty = false := by
    have := isValidEmail_length _ hEmail
    exact not_isEmpty_of_length _ (by omega)
  have hn1 : decide ((jsTrim nv).length < 2) = false := by
    simp only [decide_eq_false_iff_not, Nat.not_lt]; omega
  have hn2 : decide ((jsTrim nv).length > 100) = false := by
    simp only [decide_eq_false_iff_not, Nat.not_lt, gt_iff_lt]; omega
  have hmBad : (decide ((jsTrim mv).length < 10) || decide ((jsTrim mv).length > 2000)) = true := by
    rcases hBad with h | h <;> simp [h]
  have hL : ¬ (req.rawLen > MAX_BODY_BYTES) := by omega
  have hPO : ¬ (S "POST" = S "OPTIONS") := by decide
  simp only [fetch, tryBlock, hguard, hMethod, hParsed, extractTrim, hRate,
    hNe, hEe, hMsgNe, hTok, hn1, hn2, hmBad, hEmail, hL, h1, h2, h3, h4,
    Bool.not_true, Bool.not_false, Bool.false_and, Bool.and_false, Bool.false_or,
    Bool.or_false, Bool.or_self, if_false, if_true, ite_false, ite_true, if_neg hPO]
  simp

set_option maxRecDepth 4000 in
/-- C8: boundary behavior of the field validation, at the handler
level with all other inputs valid: names of length 2 and 100 are
accepted (200) while lengths 1 and 101 get the specific name 400;
messages of length 10 and 2000 are accepted while 9 and 2001 get the
specific message 400; the email a@b.co is accepted, any email holding
CR/LF/TAB is rejected, the pattern accepts at length 254 and rejects at
255 and below 3; and the first failing rule wins: with an invalid name,
email and message, the name error is returned, and with an invalid
email and message, the email error is returned. -/
theorem c8_boundary_validation :
    (fetch (mkReq (List.replicate 2 'a') (S "jo@example.com") (List.replicate 10 'm'))
      goodEnv [] goodTs true tnow).1.status = 200 ∧
    (fetch (mkReq (List.replicate 100 'a') (S "jo@example.com") (List.replicate 10 'm'))
      goodEnv [] goodTs true tnow).1.status = 200 ∧
    (fetch (mkReq (List.replicate 1 'a') (S "jo@example.com") (List.replicate 10 'm'))
      goodEnv [] goodTs true tnow).1.status = 400 ∧
    (fetch (mkReq (List.replicate 1 'a') (S "jo@example.com") (List.replicate 10 'm'))
      goodEnv [] goodTs true tnow).1.body =
      .errJson (S "Name must be between 2 and 100 characters") ∧
    (fetch (mkReq (List.replicate 101 'a') (S "jo@example.com") (List.replicate 10 'm'))
      goodEnv [] goodTs true tnow).1.status = 400 ∧
    (fetch (mkReq (List.replicate 101 'a') (S "jo@example.com") (List.replicate 10 'm'))
      goodEnv [] goodTs true tnow).1.body =
      .errJson (S "Name must be between 2 and 100 characters") ∧
    (fetch (mkReq (S "Jo") (S "jo@example.com") (List.replicate 2000 'm'))
      goodEnv [] goodTs true tnow).1.status = 200 ∧
    (fetch (mkReq (S "Jo") (S "jo@example.com") (List.replicate 9 'm'))
      goodEnv [] goodTs true tnow).1.status = 400 ∧
    (fetch (mkReq (S "Jo") (S "jo@example.com") (List.replicate 9 'm'))
      goodEnv [] goodTs true tnow).1.body =
      .errJson (S "Message must be between 10 and 2000 characters") ∧
    (fetch (mkReq (S "Jo") (S "jo@example.com") (List.replicate 2001 'm'))
      goodEnv [] goodTs true tnow).1.status = 400 ∧
    (fetch (mkReq (S "Jo") (S "jo@example.com") (List.replicate 2001 'm'))
      goodEnv [] goodTs true tnow).1.body =
      .errJson (S "Message must be between 10 and 2000 characters") ∧
    isValidEmail (S "a@b.co") = true ∧
    (fetch (mkReq (S "Jo") (S "a@b.co") (List.replicate 10 'm'))
      goodEnv [] goodTs true tnow).1.status = 200 ∧
    (∀ (e : Str) (c : Char), c ∈ e → (c = '\r' ∨ c = '\n' ∨ c = '\t') →
      isValidEmail e = false) ∧
    isValidEmail (List.replicate 249 'a' ++ S "@b.co") = true ∧
    isValidEmail (List.replicate 250 'a' ++ S "@b.co") = false ∧
    isValidEmail (S "a@") = false ∧
    (fetch (mkReq (List.replicate 1 'a') (S "bad email") (List.replicate 9 'm'))
      goodEnv [] goodTs true tnow).1.body =
      .errJson (S "Name must be between 2 and 100 characters") ∧
    (fetch (mkReq (S "Jo") (S "bad email") (List.replicate 9 'm'))
      goodEnv [] goodTs true tnow).1.body =
      .errJson (S "Invalid email address") := by
  have hm2000 := fetch_valid (mkReq (S "Jo") (S "jo@example.com") (List.replicate 2000 'm'))
    goodEnv [] goodTs true tnow (S "Jo") (S "jo@example.com") (List.replicate 2000 'm') (S "tok")
    (by decide) (by decide) (by decide) (by decide) (by decide) rfl (by decide)
    (by decide)
    (⟨by simp only [jsTrim_replicate 2000 'm' (by decide), List.length_replicate]; omega,
      by simp only [jsTrim_replicate 2000 'm' (by decide), List.length_replicate]; omega⟩)
    (by decide) (by decide) (by decide)
  have hm2001 := fetch_bad_message (mkReq (S "Jo") (S "jo@example.com") (List.replicate 2001 'm'))
    goodEnv [] goodTs true tnow (S "Jo") (S "jo@example.com") (List.replicate 2001 'm') (S "tok")
    (by decide) (by decide) (by decide) (by decide) (by decide) rfl (by decide)
    (by decide)
    (by rw [jsTrim_replicate 2001 'm' (by decide)]
        exact not_isEmpty_of_length _ (by rw [List.length_replicate]; norm_num))
    (by right
        rw [jsTrim_replicate 2001 'm' (by decide), List.length_replicate]
        norm_num)
    (by decide)
  refine ⟨by decide, by decide, by decide, by decide, by decide, by decide,
    by rw [hm2000]; rfl,
    by decide, by decide,
    by rw [hm2001]; rfl,
    by rw [hm2001]; rfl,
    by decide, by decide,
    fun e c hc hctrl => isValidEmail_ctrl e c hc hctrl,
    by decide, by decide, by decide, by decide, by decide⟩

/-- Does `(v || \x22\x22).trim()` throw a TypeError?  Exactly for truthy
non-string values, where `.trim` is undefined. -/
def trimThrows (v : JSVal) : Bool :=
  match v with
  | .strv _ => false
  | v => v.truthy

/-- A throwing field makes the extraction step raise. -/
theorem extractTrim_throws (v : JSVal) (h : trimThrows v = true) :
    extractTrim v = .error () := by
  cases v <;> simp_all [trimThrows, extractTrim, JSVal.truthy]

/-- C10: a POST that reaches body parsing whose JSON body is `null`, or
an object in which some of the four fields holds a truthy non-string
value, makes the trim step throw; the top-level catch maps this to the
generic 500 dispatch-failure response (not a 400 validation error), and
no email is dispatched. -/
theorem c10_type_confusion_500 (req : Request) (env : Env) (store : Store)
    (tsOutcome : SiteverifyOutcome) (sesOk : Bool) (now : Str)
    (hOrigin : originOk req = true)
    (hMethod : req.method = S "POST")
    (hEnv : envOk env = true)
    (hRate : rateLimited (lookupStore store (keyOf req)) = false)
    (hLen : req.rawLen ≤ MAX_BODY_BYTES)
    (hBad : req.parsed = .nullVal ∨
      ∃ nv ev mv tv, req.parsed = .obj nv ev mv tv ∧
        (trimThrows nv = true ∨ trimThrows ev = true ∨ trimThrows mv = true ∨
         trimThrows tv = true)) :
    (fetch req env store tsOutcome sesOk now).1.status = 500 ∧
    (fetch req env store tsOutcome sesOk now).1.body =
      .errJson (S "Failed to send email. Please try again later.") ∧
    sentEmails (fetch req env store tsOutcome sesOk now).2 = [] := by
  have hguard := origin_guard_false req hOrigin
  have henv : envTruthy env.turnstileSecretKey = true ∧ envTruthy env.awsAccessKeyId = true ∧
      envTruthy env.awsSecretAccessKey = true ∧ env.rateLimiterPresent = true := by
    unfold envOk at hEnv
    simp only [Bool.and_eq_true] at hEnv
    exact ⟨hEnv.1.1.1, hEnv.1.1.2, hEnv.1.2, hEnv.2⟩
  obtain ⟨h1, h2, h3, h4⟩ := henv
  have hL : ¬ (req.rawLen > MAX_BODY_BYTES) := by omega
  have hPO : ¬ (S "POST" = S "OPTIONS") := by decide
  rcases hBad with hp | ⟨nv, ev, mv, tv, hp, hthrow⟩
  · simp only [fetch, tryBlock, hguard, hMethod, hp, hRate, hL, h1, h2, h3, h4,
      Bool.not_true, Bool.not_false, Bool.false_eq_true, if_false, if_true,
      ite_false, ite_true, if_neg hPO, if_neg hL]
    simp [sentEmails, json]
  · rcases hn : extractTrim nv with u | n <;> rcases he : extractTrim ev with u2 | e <;>
      rcases hm : extractTrim mv with u3 | mm <;> rcases ht : extractTrim tv with u4 | tt
    all_goals try (
      simp only [fetch, tryBlock, hguard, hMethod, hp, hn, he, hm, ht, hRate, h1, h2, h3, h4,
        Bool.not_true, Bool.not_false, Bool.false_eq_true, if_false, if_true,
        ite_false, ite_true, if_neg hPO, if_neg hL]
      simp [sentEmails, json])
    all_goals
      rcases hthrow with h | h | h | h <;> first
        | (rw [extractTrim_throws _ h] at hn; simp at hn)
        | (rw [extractTrim_throws _ h] at he; simp at he)
        | (rw [extractTrim_throws _ h] at hm; simp at hm)
        | (rw [extractTrim_throws _ h] at ht; simp at ht)

/-- Instantiation of the C8 control-character conjunct on an email
containing a newline. -/
theorem c8_witness :
    (('\n') ∈ S "jo@exam\nple.com" ∧
     (('\n' : Char) = '\r' ∨ ('\n' : Char) = '\n' ∨ ('\n' : Char) = '\t')) ∧
    isValidEmail (S "jo@exam\nple.com") = false :=
  ⟨⟨by decide, Or.inr (Or.inl rfl)⟩,
   c8_boundary_validation.2.2.2.2.2.2.2.2.2.2.2.2.2.1
     (S "jo@exam\nple.com") '\n' (by decide) (Or.inr (Or.inl rfl))⟩

/-- A request whose name field is a number: the trim call throws. -/
def badFieldReq : Request :=
  { goodReq with
    parsed := ParseResult.obj (.numv 5) (.strv (S "jo@example.com"))
      (.strv (S "Hello there, this works!")) (.strv (S "tok")) }

/-- Instantiation of the C10 theorem: a numeric name field yields the
generic 500 with no dispatch. -/
theorem c10_witness :
    (originOk badFieldReq = true ∧ trimThrows (JSVal.numv 5) = true) ∧
    ((fetch badFieldReq goodEnv [] goodTs true tnow).1.status = 500 ∧
     (fetch badFieldReq goodEnv [] goodTs true tnow).1.body =
       .errJson (S "Failed to send email. Please try again later.") ∧
     sentEmails (fetch badFieldReq goodEnv [] goodTs true tnow).2 = []) :=
  ⟨⟨by decide, by decide⟩,
   c10_type_confusion_500 badFieldReq goodEnv [] goodTs true tnow
     (by decide) (by decide) (by decide) (by decide) (by decide)
     (Or.inr ⟨.numv 5, .strv (S "jo@example.com"), .strv (S "Hello there, this works!"),
       .strv (S "tok"), rfl, Or.inl (by decide)⟩)⟩

end Contact
